import Mathlib

/-
Shallow embedding of the dicedb-go client (src/main.go).

The external collaborators (TCP transport, the ironhawk codec, the uuid
generator) are modelled as an oracle environment: a list of connection
outcomes, a list of wire exchanges (one per Write/Read round trip of the
codec), a list of receive outcomes for the watch connection, and a list of
generated identifiers.  Connections and Go channels are numeric handles.
An event trace records connection opens, closes, the in-place install of a
reconnected client (the statement star-c equals star-nc in Go), and the
start of the watch background task.  The reconnect recursion of Fire is
bounded by explicit fuel; a result of none means the fuel ran out.
-/

set_option linter.unusedVariables false

namespace Dicedb

/-- Status of a wire Result: models wire.Status_OK and wire.Status_ERR. -/
inductive Status where
  | OK : Status
  | ERR : Status
deriving DecidableEq

/-- A wire Command: a name plus ordered string arguments (wire.Command). -/
structure Command where
  cmd : String
  args : List String
deriving DecidableEq

/-- A wire Result: the status and message fields used by the client code. -/
structure Result where
  status : Status
  message : String
deriving DecidableEq

/-- The Client struct of main.go.  Connections and channels are numeric
handles; none models a nil field (the Go zero value). -/
structure Client where
  id : String
  conn : Option Nat
  watchConn : Option Nat
  watchCh : Option Nat
  host : String
  port : Nat
deriving DecidableEq

/-- Observable events of a run: connection opened, connection closed, the
in-place install of a freshly reconnected client, and the start of the
watch background task. -/
inductive Event where
  | opened (conn : Nat)
  | closed (conn : Nat)
  | installed
  | watchStarted
deriving DecidableEq

/-- Outcome of one net.DialTimeout call. -/
inductive ConnectOutcome where
  | ok (conn : Nat)
  | fail (e : String)
deriving DecidableEq

/-- Outcome of one ironhawk.Write followed by ironhawk.Read round trip. -/
inductive Exchange where
  | writeErr (e : String)
  | readErr (e : String)
  | ok (r : Result)
deriving DecidableEq

/-- Outcome of one ironhawk.Read on the watch connection. -/
inductive WatchRead where
  | ok (r : Result)
  | err (e : String)
deriving DecidableEq

/-- The oracle environment: pending transport outcomes, pending generated
identifiers, the next fresh channel handle, and the event trace so far. -/
structure Env where
  connects : List ConnectOutcome
  exchanges : List Exchange
  watchReads : List WatchRead
  ids : List String
  nextChan : Nat
  trace : List Event
deriving DecidableEq

/-- Append one event to the trace. -/
def pushEvent (env : Env) (e : Event) : Env :=
  { env with trace := env.trace ++ [e] }

/-- newConn of main.go: consume the next connect outcome; a successful dial
records an opened event.  An exhausted oracle acts as a dial timeout. -/
def takeConnect (env : Env) : ConnectOutcome × Env :=
  match env.connects with
  | [] => (ConnectOutcome.fail "dial tcp: i/o timeout", env)
  | ConnectOutcome.ok n :: rest =>
      (ConnectOutcome.ok n, pushEvent { env with connects := rest } (Event.opened n))
  | ConnectOutcome.fail e :: rest =>
      (ConnectOutcome.fail e, { env with connects := rest })

/-- Consume the next command-connection wire exchange. -/
def takeExchange (env : Env) : Exchange × Env :=
  match env.exchanges with
  | [] => (Exchange.readErr "EOF", env)
  | o :: rest => (o, { env with exchanges := rest })

/-- Consume the next watch-connection read. -/
def takeWatchRead (env : Env) : WatchRead × Env :=
  match env.watchReads with
  | [] => (WatchRead.err "EOF", env)
  | o :: rest => (o, { env with watchReads := rest })

/-- uuid.New().String(): consume the next generated identifier. -/
def takeId (env : Env) : String × Env :=
  match env.ids with
  | [] => ("00000000-0000-0000-0000-000000000000", env)
  | i :: rest => (i, { env with ids := rest })

/-- Close a connection handle (a nil connection closes nothing). -/
def closeConn (env : Env) (co : Option Nat) : Env :=
  match co with
  | none => env
  | some n => pushEvent env (Event.closed n)

/-- The Result produced by one low-level fire for a given exchange outcome:
a Write error or a Read error is synthesized into an ERR Result carrying
the error text; otherwise the decoded Result is returned. -/
def fireResult (o : Exchange) : Result :=
  match o with
  | Exchange.writeErr e => { status := Status.ERR, message := e }
  | Exchange.readErr e => { status := Status.ERR, message := e }
  | Exchange.ok r => r

/-- The lowercase fire method of main.go: ironhawk.Write then ironhawk.Read
on the given connection, errors synthesized into ERR Results. -/
def fire (c : Client) (cmd : Command) (co : Option Nat) (env : Env) : Result × Env :=
  match takeExchange env with
  | (o, env1) => (fireResult o, env1)

/-- Occurrence of one character list inside another: the pattern is a
prefix of some suffix. -/
def listContains (pat : List Char) : List Char → Bool
  | [] => pat.isEmpty
  | c :: rest => pat.isPrefixOf (c :: rest) || listContains pat rest

/-- Substring test modelling strings.Contains. -/
def strContains (s pat : String) : Bool :=
  listContains pat.toList s.toList

/-- io.EOF.Error() in Go. -/
def eofErrorMessage : String := "EOF"

/-- syscall.EPIPE.Error() in Go. -/
def epipeErrorMessage : String := "broken pipe"

/-- The fault classification of checkAndReconnect: the message equals the
end-of-stream signal, or contains the broken-pipe text. -/
def isRecoverable (err : String) : Bool :=
  (err == eofErrorMessage) || strContains err epipeErrorMessage

/-- type option func(*Client) of main.go. -/
abbrev ClientOption := Client → Client

/-- WithID of main.go: an option overriding the identity. -/
def WithID (id : String) : ClientOption :=
  fun c => { c with id := id }

/-- The option-application loop of NewClient. -/
def applyOpts (opts : List ClientOption) (c : Client) : Client :=
  opts.foldl (fun acc f => f acc) c

/-- The identifier-defaulting step of NewClient: an empty identity is
replaced by a freshly generated one. -/
def assignId (c : Client) (env : Env) : Client × Env :=
  if c.id = "" then
    match takeId env with
    | (i, env1) => ({ c with id := i }, env1)
  else (c, env)

mutual

/-- Client.Fire of main.go: low-level fire on the command connection; on an
ERR Result, checkAndReconnect classifies the message and, after a
successful reconnect, Fire retries the same Command on the updated client. -/
def Fire : Nat → Client → Command → Env → Option (Result × Client × Env)
| 0, _, _, _ => none
| Nat.succ f, c, cmd, env =>
  match fire c cmd c.conn env with
  | (result, env1) =>
    if result.status = Status.ERR then
      match checkAndReconnect f c result.message env1 with
      | none => none
      | some (true, c2, env2) => Fire f c2 cmd env2
      | some (false, _, env2) => some (result, c, env2)
    else some (result, c, env1)

/-- checkAndReconnect of main.go: on a recoverable message, build a fresh
client through getOrCreateClient; on success install it in place of the
old one (star-c equals star-nc) and report true; otherwise report false
leaving the client untouched. -/
def checkAndReconnect : Nat → Client → String → Env → Option (Bool × Client × Env)
| 0, _, _, _ => none
| Nat.succ f, c, err, env =>
  if isRecoverable err then
    match getOrCreateClient f c env with
    | none => none
    | some (Except.error _, env1) => some (false, c, env1)
    | some (Except.ok nc, env1) => some (true, nc, pushEvent env1 Event.installed)
  else some (false, c, env)

/-- getOrCreateClient of main.go: build a brand-new client for the same
host and port (the nil-receiver branch of the source is unreachable here),
then close the superseded command connection.  No options are passed, so
the new client generates a fresh identity. -/
def getOrCreateClient : Nat → Client → Env → Option (Except String Client × Env)
| 0, _, _ => none
| Nat.succ f, c, env =>
  match NewClient f c.host c.port [] env with
  | none => none
  | some (Except.error e, env1) => some (Except.error e, env1)
  | some (Except.ok nc, env1) => some (Except.ok nc, closeConn env1 c.conn)

/-- NewClient of main.go: dial, apply options, default the identity, then
Fire the HANDSHAKE command with arguments [identity, "command"]; an ERR
handshake aborts creation with the wrapped server message. -/
def NewClient : Nat → String → Nat → List ClientOption → Env → Option (Except String Client × Env)
| 0, _, _, _, _ => none
| Nat.succ f, host, port, opts, env =>
  match takeConnect env with
  | (ConnectOutcome.fail e, env1) => some (Except.error e, env1)
  | (ConnectOutcome.ok conn, env1) =>
    let c1 := applyOpts opts
      { id := "", conn := some conn, watchConn := none, watchCh := none,
        host := host, port := port }
    match assignId c1 env1 with
    | (c2, env2) =>
      match Fire f c2 { cmd := "HANDSHAKE", args := [c2.id, "command"] } env2 with
      | none => none
      | some (resp, c3, env3) =>
        if resp.status = Status.ERR then
          some (Except.error (String.append "could not complete the handshake: " resp.message), env3)
        else some (Except.ok c3, env3)

end

/-- Character class of unicode.IsSpace restricted to the Latin-1 range
(the inputs considered in this development); the full Unicode table is an
external concern of the Go standard library. -/
def isSpaceChar (ch : Char) : Bool :=
  ch = ' ' || ch = '\t' || ch = '\n' || ch = '\x0b' || ch = '\x0c' ||
  ch = '\r' || ch = '\x85' || ch = '\xa0'

/-- strings.TrimSpace: drop leading and trailing whitespace characters. -/
def goTrimSpace (s : String) : String :=
  String.mk (((s.toList.dropWhile isSpaceChar).reverse.dropWhile isSpaceChar).reverse)

/-- strings.Split with a one-character separator: cut at every occurrence
of the separator, keeping empty fields; the result is never empty. -/
def splitOnChar (sep : Char) : List Char → List (List Char)
  | [] => [[]]
  | ch :: rest =>
    let r := splitOnChar sep rest
    if ch = sep then [] :: r
    else (ch :: r.headD []) :: r.tail

/-- strings.Split(s, " ") as used by FireString. -/
def goSplitSpace (s : String) : List String :=
  (splitOnChar ' ' s.toList).map String.mk

/-- The Command that FireString builds from its input string: trim, split
on single spaces, first token is the command, the rest are arguments
(tokens[1:] when more than one token, otherwise the nil slice). -/
def fireStringCommand (cmdStr : String) : Command :=
  let cmdStr1 := goTrimSpace cmdStr
  let tokens := goSplitSpace cmdStr1
  let cmd := tokens.headD ""
  let args := if tokens.length > 1 then tokens.tail else []
  { cmd := cmd, args := args }

/-- Client.FireString of main.go: parse the space-delimited string and
delegate to Fire. -/
def FireString (fuel : Nat) (c : Client) (cmdStr : String) (env : Env) :
    Option (Result × Client × Env) :=
  Fire fuel c (fireStringCommand cmdStr) env

/-- Splitting a character list at every character satisfying a
predicate, keeping empty fields. -/
def splitOnP (p : Char → Bool) : List Char → List (List Char)
  | [] => [[]]
  | ch :: rest =>
    let r := splitOnP p rest
    if p ch then [] :: r else (ch :: r.headD []) :: r.tail

/-- Modelled from the spec (for comparison only, not from the source):
splitting into whitespace-separated tokens, as the words of the claim
describe — maximal runs of whitespace separate tokens and produce no
empty fields. -/
def specWhitespaceTokens (s : String) : List String :=
  ((splitOnP isSpaceChar (goTrimSpace s).toList).map String.mk).filter
    (fun t => !t.isEmpty)

/-- Joining character lists with a separator character; the inverse of
splitOnChar. -/
def joinWith (sep : Char) : List (List Char) → List Char
  | [] => []
  | [t] => t
  | t :: ts => t ++ sep :: joinWith sep ts

/-- Client.WatchCh of main.go: return the existing watch channel when one
is set; otherwise allocate the channel, dial the watch connection, fire
the HANDSHAKE command with arguments [identity, "watch"] over it, and on
success start the background watch task (recorded as an event).  The
channel field is assigned before the connection is attempted, exactly as
in the source. -/
def WatchCh (c : Client) (env : Env) : Except String Nat × Client × Env :=
  match c.watchCh with
  | some ch => (Except.ok ch, c, env)
  | none =>
    let ch := env.nextChan
    let env0 := { env with nextChan := env.nextChan + 1 }
    let c1 := { c with watchCh := some ch }
    match takeConnect env0 with
    | (ConnectOutcome.fail e, env1) =>
        (Except.error e, { c1 with watchConn := none }, env1)
    | (ConnectOutcome.ok n, env1) =>
      let c2 := { c1 with watchConn := some n }
      match fire c2 { cmd := "HANDSHAKE", args := [c2.id, "watch"] } c2.watchConn env1 with
      | (resp, env2) =>
        if resp.status = Status.ERR then
          (Except.error (String.append "could not complete the handshake: " resp.message), c2, env2)
        else
          (Except.ok ch, c2, pushEvent env2 Event.watchStarted)

/-- Observable outcome of one iteration of the watch background loop. -/
inductive WatchStep where
  | panicked (e : String)
  | pushed (r : Option Result) (c : Client) (env : Env)
deriving DecidableEq

/-- One iteration of the watch method of main.go: read from the watch
connection; on a read error run checkAndReconnect and panic when it
reports false; otherwise fall through and push the received value (which
is the nil pointer when the read had failed) onto the watch channel. -/
def watchStep (fuel : Nat) (c : Client) (env : Env) : Option WatchStep :=
  match takeWatchRead env with
  | (WatchRead.ok r, env1) => some (WatchStep.pushed (some r) c env1)
  | (WatchRead.err e, env1) =>
    match checkAndReconnect fuel c e env1 with
    | none => none
    | some (false, _, _) => some (WatchStep.panicked e)
    | some (true, c2, env2) => some (WatchStep.pushed none c2 env2)

/-- Client.Close of main.go: close the command connection. -/
def Close (c : Client) (env : Env) : Env :=
  closeConn env c.conn

/-- Connection handles opened within a trace. -/
def opensIn (tr : List Event) : List Nat :=
  tr.filterMap fun e =>
    match e with
    | Event.opened n => some n
    | _ => none

/-- Connection handles closed within a trace. -/
def closesIn (tr : List Event) : List Nat :=
  tr.filterMap fun e =>
    match e with
    | Event.closed n => some n
    | _ => none

/-- The connections still open after the first k events of a trace. -/
def openConnsAt (tr : List Event) (k : Nat) : List Nat :=
  (opensIn (tr.take k)).filter fun n => !(closesIn (tr.take k)).contains n

theorem takeExchange_of_eq (env : Env) (o : Exchange) (rest : List Exchange)
    (h : env.exchanges = o :: rest) :
    takeExchange env = (o, { env with exchanges := rest }) := by
  simp [takeExchange, h]

theorem fire_of_eq (c : Client) (cmd : Command) (co : Option Nat) (env : Env)
    (o : Exchange) (rest : List Exchange) (h : env.exchanges = o :: rest) :
    fire c cmd co env = (fireResult o, { env with exchanges := rest }) := by
  simp [fire, takeExchange_of_eq env o rest h]

/-- Claim C3: a Fire call whose Result has ERR status with a message that
is neither the end-of-stream signal nor a broken-pipe condition triggers
no reconnect attempt: no connection is dialed or closed (the environment
changes only by the consumed wire exchange), the client value is returned
unchanged, and that exact Result is handed to the caller. -/
theorem Fire_no_reconnect_on_application_error
    (f : Nat) (c : Client) (cmd : Command) (env : Env)
    (o : Exchange) (rest : List Exchange)
    (hio : env.exchanges = o :: rest)
    (herr : (fireResult o).status = Status.ERR)
    (hrec : isRecoverable (fireResult o).message = false) :
    Fire (f + 2) c cmd env = some (fireResult o, c, { env with exchanges := rest }) := by
  show Fire (Nat.succ (f + 1)) c cmd env = _
  rw [Fire, fire_of_eq c cmd c.conn env o rest hio]
  show (if (fireResult o).status = Status.ERR then _ else _) = _
  rw [if_pos herr]
  show (match checkAndReconnect (Nat.succ f) c (fireResult o).message _ with
        | none => none
        | some (true, c2, env2) => Fire (f + 1) c2 cmd env2
        | some (false, _, env2) => some (fireResult o, c, env2)) = _
  rw [checkAndReconnect, if_neg (by simp [hrec])]

/-- Witness for claim C3 at a concrete server-side error. -/
theorem Fire_no_reconnect_on_application_error_witness :
    Fire 2
      { id := "A", conn := some 0, watchConn := none, watchCh := none,
        host := "h", port := 1 }
      { cmd := "GET", args := ["k"] }
      { connects := [],
        exchanges := [Exchange.ok { status := Status.ERR, message := "unknown command" }],
        watchReads := [], ids := [], nextChan := 0, trace := [Event.opened 0] }
    = some ({ status := Status.ERR, message := "unknown command" },
        { id := "A", conn := some 0, watchConn := none, watchCh := none,
          host := "h", port := 1 },
        { connects := [], exchanges := [], watchReads := [], ids := [],
          nextChan := 0, trace := [Event.opened 0] }) :=
  Fire_no_reconnect_on_application_error 0 _ _ _
    (Exchange.ok { status := Status.ERR, message := "unknown command" }) []
    rfl rfl (by decide)

/-- Claim C2: a Fire call whose first exchange yields a recoverable
transport fault (end-of-stream or broken-pipe message), and whose
reconnect succeeds (dial succeeds and the handshake of the fresh client
returns OK), returns exactly the result of retrying the same Command on
the reconnected client: the intermediate fault Result never reaches the
caller, and the environment shows exactly one reconnect-and-handshake
cycle for the fault (one dial, one consumed handshake exchange, one close
of the superseded connection, one install). -/
theorem Fire_retries_after_successful_reconnect
    (g : Nat) (c : Client) (cmd : Command) (env : Env)
    (o : Exchange) (hs : Result) (rest : List Exchange)
    (n old : Nat) (cRest : List ConnectOutcome) (i : String) (idRest : List String)
    (hio : env.exchanges = o :: Exchange.ok hs :: rest)
    (herr : (fireResult o).status = Status.ERR)
    (hrec : isRecoverable (fireResult o).message = true)
    (hconn : env.connects = ConnectOutcome.ok n :: cRest)
    (hhs : hs.status = Status.OK)
    (hids : env.ids = i :: idRest)
    (hold : c.conn = some old) :
    Fire (g + 5) c cmd env =
      Fire (g + 4)
        { id := i, conn := some n, watchConn := none, watchCh := none,
          host := c.host, port := c.port } cmd
        { env with connects := cRest, exchanges := rest, ids := idRest,
                   trace := env.trace ++
                     [Event.opened n, Event.closed old, Event.installed] } := by
  obtain ⟨cs, ex, wr, ids0, nch, tr⟩ := env
  obtain ⟨cid, conn, wconn, wch, chost, cport⟩ := c
  simp only at hconn hio hids hold
  subst hconn hio hids hold
  cases o with
  | writeErr e =>
    simp only [fireResult] at herr hrec
    simp [Fire, checkAndReconnect, getOrCreateClient, NewClient, fire, takeConnect,
          takeExchange, takeId, assignId, applyOpts, closeConn, pushEvent, fireResult,
          hrec, hhs, herr]
  | readErr e =>
    simp only [fireResult] at herr hrec
    simp [Fire, checkAndReconnect, getOrCreateClient, NewClient, fire, takeConnect,
          takeExchange, takeId, assignId, applyOpts, closeConn, pushEvent, fireResult,
          hrec, hhs, herr]
  | ok r =>
    simp only [fireResult] at herr hrec
    simp [Fire, checkAndReconnect, getOrCreateClient, NewClient, fire, takeConnect,
          takeExchange, takeId, assignId, applyOpts, closeConn, pushEvent, fireResult,
          hrec, hhs, herr]

/-- Witness for claim C2: a concrete end-of-stream fault followed by a
successful reconnect and retry. -/
theorem Fire_retries_after_successful_reconnect_witness :
    Fire 5
      { id := "client-1", conn := some 0, watchConn := none, watchCh := none,
        host := "h", port := 1 }
      { cmd := "PING", args := [] }
      { connects := [ConnectOutcome.ok 1],
        exchanges := [Exchange.readErr "EOF",
                      Exchange.ok { status := Status.OK, message := "OK" },
                      Exchange.ok { status := Status.OK, message := "PONG" }],
        watchReads := [], ids := ["generated-2"], nextChan := 0,
        trace := [Event.opened 0] }
    = Fire 4
        { id := "generated-2", conn := some 1, watchConn := none, watchCh := none,
          host := "h", port := 1 }
        { cmd := "PING", args := [] }
        { connects := [],
          exchanges := [Exchange.ok { status := Status.OK, message := "PONG" }],
          watchReads := [], ids := [], nextChan := 0,
          trace := [Event.opened 0, Event.opened 1, Event.closed 0, Event.installed] } :=
  Fire_retries_after_successful_reconnect 0 _ _ _
    (Exchange.readErr "EOF") { status := Status.OK, message := "OK" }
    [Exchange.ok { status := Status.OK, message := "PONG" }]
    1 0 [] "generated-2" []
    rfl rfl (by decide) rfl rfl rfl rfl

/-- Claim C4: a Fire call that hits a recoverable transport fault, but
whose reconnection attempt itself fails (getOrCreateClient reports an
error, because the dial failed or the fresh handshake failed), returns
the original synthesized ERR Result unchanged on the unchanged client,
with no further retry. -/
theorem Fire_returns_fault_when_reconnect_fails
    (g : Nat) (c : Client) (cmd : Command) (env : Env)
    (o : Exchange) (rest : List Exchange) (e : String) (env2 : Env)
    (hio : env.exchanges = o :: rest)
    (herr : (fireResult o).status = Status.ERR)
    (hrec : isRecoverable (fireResult o).message = true)
    (hfail : getOrCreateClient g c { env with exchanges := rest }
      = some (Except.error e, env2)) :
    Fire (g + 2) c cmd env = some (fireResult o, c, env2) := by
  obtain ⟨cs, ex, wr, ids0, nch, tr⟩ := env
  simp only at hio
  subst hio
  simp only at hfail
  cases o with
  | writeErr e0 =>
    simp only [fireResult] at herr hrec
    simp [Fire, checkAndReconnect, fire, takeExchange, fireResult, herr, hrec, hfail]
  | readErr e0 =>
    simp only [fireResult] at herr hrec
    simp [Fire, checkAndReconnect, fire, takeExchange, fireResult, herr, hrec, hfail]
  | ok r =>
    simp only [fireResult] at herr hrec
    simp [Fire, checkAndReconnect, fire, takeExchange, fireResult, herr, hrec, hfail]

/-- Witness for claim C4: a concrete end-of-stream fault whose reconnect
dial is refused. -/
theorem Fire_returns_fault_when_reconnect_fails_witness :
    Fire 4
      { id := "client-1", conn := some 0, watchConn := none, watchCh := none,
        host := "h", port := 1 }
      { cmd := "PING", args := [] }
      { connects := [ConnectOutcome.fail "connection refused"],
        exchanges := [Exchange.readErr "EOF"],
        watchReads := [], ids := [], nextChan := 0, trace := [Event.opened 0] }
    = some ({ status := Status.ERR, message := "EOF" },
        { id := "client-1", conn := some 0, watchConn := none, watchCh := none,
          host := "h", port := 1 },
        { connects := [], exchanges := [], watchReads := [], ids := [],
          nextChan := 0, trace := [Event.opened 0] }) :=
  Fire_returns_fault_when_reconnect_fails 2 _ _ _
    (Exchange.readErr "EOF") [] "connection refused" _
    rfl rfl (by decide) rfl

/-- Claim C6 (amended): during a command reconnect the superseded
connection is closed strictly before the replacement client is installed,
but the replacement connection is opened, and its handshake performed,
while the superseded connection is still open: the trace of a successful
reconnect extends by opening the new connection first, then closing the
old one, then installing.  (The original claim, that each channel role
has at most one open physical connection at every instant, fails in the
window between the two: see the counterexample.) -/
theorem reconnect_closes_superseded_before_install
    (g : Nat) (c : Client) (m : String) (env : Env)
    (hs : Result) (rest : List Exchange) (n old : Nat) (cRest : List ConnectOutcome)
    (i : String) (idRest : List String)
    (hrec : isRecoverable m = true)
    (hconn : env.connects = ConnectOutcome.ok n :: cRest)
    (hio : env.exchanges = Exchange.ok hs :: rest)
    (hhs : hs.status = Status.OK)
    (hids : env.ids = i :: idRest)
    (hold : c.conn = some old) :
    checkAndReconnect (g + 4) c m env =
      some (true,
        { id := i, conn := some n, watchConn := none, watchCh := none,
          host := c.host, port := c.port },
        { env with connects := cRest, exchanges := rest, ids := idRest,
                   trace := env.trace ++
                     [Event.opened n, Event.closed old, Event.installed] }) := by
  obtain ⟨cs, ex, wr, ids0, nch, tr⟩ := env
  obtain ⟨cid, conn, wconn, wch, chost, cport⟩ := c
  simp only at hconn hio hids hold
  subst hconn hio hids hold
  simp [checkAndReconnect, getOrCreateClient, NewClient, Fire, fire, takeConnect,
        takeExchange, takeId, assignId, applyOpts, closeConn, pushEvent, fireResult,
        hrec, hhs]

/-- Witness for claim C6 at a concrete reconnect. -/
theorem reconnect_closes_superseded_before_install_witness :
    checkAndReconnect 4
      { id := "client-1", conn := some 0, watchConn := none, watchCh := none,
        host := "h", port := 1 }
      "EOF"
      { connects := [ConnectOutcome.ok 1],
        exchanges := [Exchange.ok { status := Status.OK, message := "OK" }],
        watchReads := [], ids := ["generated-2"], nextChan := 0,
        trace := [Event.opened 0] }
    = some (true,
        { id := "generated-2", conn := some 1, watchConn := none, watchCh := none,
          host := "h", port := 1 },
        { connects := [], exchanges := [], watchReads := [], ids := [],
          nextChan := 0,
          trace := [Event.opened 0, Event.opened 1, Event.closed 0,
                    Event.installed] }) :=
  reconnect_closes_superseded_before_install 0 _ _ _
    { status := Status.OK, message := "OK" } [] 1 0 [] "generated-2" []
    (by decide) rfl rfl rfl rfl rfl

/-- Counterexample to claim C6 as stated: right after the replacement
connection is opened (two events into the reconnect trace) both the old
command connection 0 and the new command connection 1 are open, so the
command role briefly has two open physical connections. -/
theorem reconnect_window_has_two_open_connections :
    ∃ nc envR,
      checkAndReconnect 4
        { id := "client-1", conn := some 0, watchConn := none, watchCh := none,
          host := "h", port := 1 }
        "EOF"
        { connects := [ConnectOutcome.ok 1],
          exchanges := [Exchange.ok { status := Status.OK, message := "OK" }],
          watchReads := [], ids := ["generated-2"], nextChan := 0,
          trace := [Event.opened 0] }
      = some (true, nc, envR)
      ∧ openConnsAt envR.trace 2 = [0, 1] :=
  ⟨{ id := "generated-2", conn := some 1, watchConn := none, watchCh := none,
     host := "h", port := 1 },
   { connects := [], exchanges := [], watchReads := [], ids := [],
     nextChan := 0,
     trace := [Event.opened 0, Event.opened 1, Event.closed 0, Event.installed] },
   by decide, by decide⟩

/-- Claim C1 (refuted by the code): at a concrete recoverable fault, the
reconnect installs a client whose identity is the freshly generated one,
not the identity held before the reconnect, because getOrCreateClient
calls NewClient without the WithID option. -/
theorem reconnect_regenerates_identity :
    ∃ nc envR,
      checkAndReconnect 4
        { id := "client-1", conn := some 0, watchConn := none, watchCh := none,
          host := "h", port := 1 }
        "EOF"
        { connects := [ConnectOutcome.ok 1],
          exchanges := [Exchange.ok { status := Status.OK, message := "OK" }],
          watchReads := [], ids := ["generated-2"], nextChan := 0,
          trace := [Event.opened 0] }
      = some (true, nc, envR)
      ∧ nc.id = "generated-2"
      ∧ nc.id ≠ "client-1" :=
  ⟨{ id := "generated-2", conn := some 1, watchConn := none, watchCh := none,
     host := "h", port := 1 },
   { connects := [], exchanges := [], watchReads := [], ids := [],
     nextChan := 0,
     trace := [Event.opened 0, Event.opened 1, Event.closed 0, Event.installed] },
   by decide, by decide, by decide⟩

/-- Claim C5: when the transport connection succeeds, client creation
fails if and only if the Fire of the HANDSHAKE command, sent with
arguments [identity, "command"], yields a Result with ERR status; in that
case the returned error is the handshake message wrapped by the fixed
prefix, and on an OK handshake the client is returned. -/
theorem NewClient_fails_iff_handshake_err
    (f : Nat) (host : String) (port : Nat) (opts : List ClientOption) (env : Env)
    (conn : Nat) (cRest : List ConnectOutcome)
    (c2 : Client) (env2 : Env) (resp : Result) (c3 : Client) (env3 : Env)
    (hconn : env.connects = ConnectOutcome.ok conn :: cRest)
    (hassign :
      assignId
        (applyOpts opts
          { id := "", conn := some conn, watchConn := none, watchCh := none,
            host := host, port := port })
        { env with connects := cRest, trace := env.trace ++ [Event.opened conn] }
        = (c2, env2))
    (hfire : Fire f c2 { cmd := "HANDSHAKE", args := [c2.id, "command"] } env2
      = some (resp, c3, env3)) :
    NewClient (f + 1) host port opts env =
      some
        (if resp.status = Status.ERR then
          Except.error (String.append "could not complete the handshake: " resp.message)
         else Except.ok c3, env3) := by
  obtain ⟨cs, ex, wr, ids0, nch, tr⟩ := env
  simp only at hconn
  subst hconn
  simp only [pushEvent] at hassign
  simp [NewClient, takeConnect, pushEvent, hassign, hfire]
  by_cases h : resp.status = Status.ERR <;> simp [h]

/-- Witness for claim C5: a concrete refused handshake aborts creation
with the wrapped server message. -/
theorem NewClient_fails_iff_handshake_err_witness :
    NewClient 3 "h" 1 []
      { connects := [ConnectOutcome.ok 0],
        exchanges := [Exchange.ok { status := Status.ERR, message := "denied" }],
        watchReads := [], ids := ["generated-1"], nextChan := 0, trace := [] }
    = some (Except.error "could not complete the handshake: denied",
        { connects := [], exchanges := [], watchReads := [],
          ids := [], nextChan := 0, trace := [Event.opened 0] }) :=
  NewClient_fails_iff_handshake_err 2 "h" 1 [] _ 0 []
    { id := "generated-1", conn := some 0, watchConn := none, watchCh := none,
      host := "h", port := 1 }
    { connects := [], exchanges := [Exchange.ok { status := Status.ERR, message := "denied" }],
      watchReads := [], ids := [], nextChan := 0, trace := [Event.opened 0] }
    { status := Status.ERR, message := "denied" }
    { id := "generated-1", conn := some 0, watchConn := none, watchCh := none,
      host := "h", port := 1 }
    { connects := [], exchanges := [], watchReads := [],
      ids := [], nextChan := 0, trace := [Event.opened 0] }
    rfl rfl rfl

theorem splitOnChar_ne_nil (sep : Char) (l : List Char) :
    splitOnChar sep l ≠ [] := by
  cases l with
  | nil => simp [splitOnChar]
  | cons ch rest =>
    simp only [splitOnChar]
    split <;> simp

theorem joinWith_splitOnChar (sep : Char) (l : List Char) :
    joinWith sep (splitOnChar sep l) = l := by
  induction l with
  | nil => rfl
  | cons ch rest ih =>
    cases hr : splitOnChar sep rest with
    | nil => exact absurd hr (splitOnChar_ne_nil sep rest)
    | cons t ts =>
      rw [hr] at ih
      by_cases hch : ch = sep
      · subst hch
        cases ts with
        | nil =>
          simp only [splitOnChar, hr, if_pos rfl, joinWith] at ih ⊢
          simp [ih]
        | cons t2 ts2 =>
          simp only [splitOnChar, hr, if_pos rfl, joinWith] at ih ⊢
          simp [ih]
      · cases ts with
        | nil =>
          simp only [splitOnChar, hr, if_neg hch, joinWith] at ih ⊢
          simp [ih]
        | cons t2 ts2 =>
          simp only [splitOnChar, hr, if_neg hch, joinWith] at ih ⊢
          simp [ih]

theorem goSplitSpace_ne_nil (s : String) : goSplitSpace s ≠ [] := by
  simp [goSplitSpace, splitOnChar_ne_nil]

theorem fireStringCommand_tokens (s : String) :
    (fireStringCommand s).cmd :: (fireStringCommand s).args
      = goSplitSpace (goTrimSpace s) := by
  unfold fireStringCommand
  cases h : goSplitSpace (goTrimSpace s) with
  | nil => exact absurd h (goSplitSpace_ne_nil (goTrimSpace s))
  | cons t ts =>
    cases ts with
    | nil => simp [h]
    | cons t2 ts2 => simp [h]

/-- Claim C9 (amended): FireString delegates the parsed Command to Fire;
the parsed tokens (command name followed by arguments, in order) are the
fields of the trimmed input cut at every single space character, so
consecutive spaces yield empty argument tokens and whitespace other than
the space character does not separate; joining the tokens back with one
space recovers the trimmed input exactly. -/
theorem FireString_splits_on_single_spaces
    (fuel : Nat) (c : Client) (s : String) (env : Env) :
    FireString fuel c s env = Fire fuel c (fireStringCommand s) env
    ∧ (fireStringCommand s).cmd :: (fireStringCommand s).args
        = goSplitSpace (goTrimSpace s)
    ∧ joinWith ' ' (splitOnChar ' ' (goTrimSpace s).toList) = (goTrimSpace s).toList :=
  ⟨rfl, fireStringCommand_tokens s, joinWith_splitOnChar ' ' (goTrimSpace s).toList⟩

/-- Counterexample to claim C9 as stated: on the input with two spaces
the whitespace-separated tokens after the command are unique, yet
FireString builds an argument list containing an empty first token, so
the Command fired is not the one the claim describes. -/
theorem fireString_not_whitespace_tokenization :
    specWhitespaceTokens "SET  key" = ["SET", "key"]
    ∧ fireStringCommand "SET  key" = { cmd := "SET", args := ["", "key"] }
    ∧ fireStringCommand "SET  key" ≠ { cmd := "SET", args := ["key"] } := by
  refine ⟨by decide, by decide, by decide⟩

/-- Claim C8: in the watch background loop, when a read on the watch
connection fails and checkAndReconnect reports false (the fault is not
recoverable, or the reconnection attempt itself failed), the iteration
panics carrying the error, terminating the process; the loop never exits
silently. -/
theorem watchStep_panics_when_unrecoverable
    (fuel : Nat) (c : Client) (env : Env) (e : String) (wRest : List WatchRead)
    (c2 : Client) (env2 : Env)
    (hw : env.watchReads = WatchRead.err e :: wRest)
    (hcar : checkAndReconnect fuel c e { env with watchReads := wRest }
      = some (false, c2, env2)) :
    watchStep fuel c env = some (WatchStep.panicked e) := by
  obtain ⟨cs, ex, wr, ids0, nch, tr⟩ := env
  simp only at hw
  subst hw
  simp only at hcar
  simp [watchStep, takeWatchRead, hcar]

/-- Witness for claim C8: a concrete unrecoverable read fault panics. -/
theorem watchStep_panics_when_unrecoverable_witness :
    watchStep 1
      { id := "client-1", conn := some 0, watchConn := some 5, watchCh := some 0,
        host := "h", port := 1 }
      { connects := [], exchanges := [],
        watchReads := [WatchRead.err "use of closed network connection"],
        ids := [], nextChan := 1, trace := [] }
    = some (WatchStep.panicked "use of closed network connection") :=
  watchStep_panics_when_unrecoverable 1 _ _
    "use of closed network connection" [] _ _ rfl rfl

/-- Claim C10: when the first WatchCh call on a client fails (the dial of
the watch connection fails, or the watch handshake returns ERR), the
channel field was already assigned before the failure, so a subsequent
WatchCh call returns that previously allocated channel with no error and
leaves the environment untouched: no connection is dialed, no handshake
exchange is consumed, and no background task is started. -/
theorem WatchCh_after_failed_first_call
    (c : Client) (env : Env) (e : String) (c1 : Client) (env1 : Env)
    (hn : c.watchCh = none)
    (hfail : WatchCh c env = (Except.error e, c1, env1)) :
    c1.watchCh = some env.nextChan
    ∧ WatchCh c1 env1 = (Except.ok env.nextChan, c1, env1) := by
  have h1 : c1.watchCh = some env.nextChan := by
    obtain ⟨cs, ex, wr, ids0, nch, tr⟩ := env
    obtain ⟨cid, conn, wconn, wch, chost, cport⟩ := c
    simp only at hn
    subst hn
    simp only [WatchCh, takeConnect, fire, takeExchange, fireResult, pushEvent] at hfail
    repeat' split at hfail
    all_goals simp only [Prod.mk.injEq] at hfail
    all_goals obtain ⟨ha, hb, hc⟩ := hfail
    all_goals subst hb
    all_goals rfl
  refine ⟨h1, ?_⟩
  simp [WatchCh, h1]

/-- Witness for claim C10: a refused watch dial, then an idempotent
second call. -/
theorem WatchCh_after_failed_first_call_witness :
    ({ id := "client-1", conn := some 0, watchConn := none, watchCh := some 7,
       host := "h", port := 1 } : Client).watchCh = some 7
    ∧ WatchCh
        { id := "client-1", conn := some 0, watchConn := none, watchCh := some 7,
          host := "h", port := 1 }
        { connects := [], exchanges := [], watchReads := [], ids := [],
          nextChan := 8, trace := [Event.opened 0] }
      = (Except.ok 7,
         { id := "client-1", conn := some 0, watchConn := none, watchCh := some 7,
           host := "h", port := 1 },
         { connects := [], exchanges := [], watchReads := [], ids := [],
           nextChan := 8, trace := [Event.opened 0] }) :=
  WatchCh_after_failed_first_call
    { id := "client-1", conn := some 0, watchConn := none, watchCh := none,
      host := "h", port := 1 }
    { connects := [ConnectOutcome.fail "connection refused"], exchanges := [],
      watchReads := [], ids := [], nextChan := 7, trace := [Event.opened 0] }
    "connection refused"
    { id := "client-1", conn := some 0, watchConn := none, watchCh := some 7,
      host := "h", port := 1 }
    { connects := [], exchanges := [], watchReads := [], ids := [],
      nextChan := 8, trace := [Event.opened 0] }
    rfl rfl

/-- Claim C7 (refuted by the code): after a command reconnect the install
of the fresh client resets the watch fields, so the next WatchCh call
allocates a new queue handle (1, distinct from the previously established
handle 0) and dials a second watch connection (handle 2), while the first
watch connection (handle 5) is never closed. -/
theorem reconnect_then_watchCh_creates_second_queue :
    ∃ r nc env1 c2 env2,
      Fire 5
        { id := "client-1", conn := some 0, watchConn := some 5, watchCh := some 0,
          host := "h", port := 1 }
        { cmd := "PING", args := [] }
        { connects := [ConnectOutcome.ok 1, ConnectOutcome.ok 2],
          exchanges := [Exchange.readErr "EOF",
                        Exchange.ok { status := Status.OK, message := "OK" },
                        Exchange.ok { status := Status.OK, message := "PONG" },
                        Exchange.ok { status := Status.OK, message := "OK" }],
          watchReads := [], ids := ["generated-2"], nextChan := 1,
          trace := [Event.opened 0, Event.opened 5, Event.watchStarted] }
      = some (r, nc, env1)
      ∧ nc.watchCh = none
      ∧ WatchCh nc env1 = (Except.ok 1, c2, env2)
      ∧ (1 : Nat) ≠ 0
      ∧ c2.watchCh = some 1
      ∧ c2.watchConn = some 2
      ∧ closesIn env2.trace = [0] :=
  ⟨{ status := Status.OK, message := "PONG" },
   { id := "generated-2", conn := some 1, watchConn := none, watchCh := none,
     host := "h", port := 1 },
   { connects := [ConnectOutcome.ok 2],
     exchanges := [Exchange.ok { status := Status.OK, message := "OK" }],
     watchReads := [], ids := [], nextChan := 1,
     trace := [Event.opened 0, Event.opened 5, Event.watchStarted,
               Event.opened 1, Event.closed 0, Event.installed] },
   { id := "generated-2", conn := some 1, watchConn := some 2, watchCh := some 1,
     host := "h", port := 1 },
   { connects := [], exchanges := [], watchReads := [], ids := [], nextChan := 2,
     trace := [Event.opened 0, Event.opened 5, Event.watchStarted,
               Event.opened 1, Event.closed 0, Event.installed,
               Event.opened 2, Event.watchStarted] },
   rfl, rfl, rfl, by decide, rfl, rfl, rfl⟩

end Dicedb
